import Mathlib

/-!
Verification of the session-management core (`src/app/sessions.py`).

The embedding is a symbolic, executable model of the module:

* Python strings that circulate as session identifiers / stored payloads are
  modelled by the inductive type `Sessions.PStr`.  The outputs of the two
  `itsdangerous` signers are modelled as constructors carrying the secret key,
  the payload and (for the timestamped signer) the embedded timestamp; any
  other client-supplied string is `PStr.raw s`.  Signature unforgeability is
  reflected by construction: `unsign` succeeds exactly on values built by
  `sign` with the same secret key, which is the documented contract of
  `itsdangerous.Signer` / `itsdangerous.TimestampSigner`.
* `base64encode(json.dumps d)` is modelled by the injective constructor
  `Payload.jsonB64 d`: for string-keyed mappings of JSON scalars the
  dumps/loads composition is the identity, so an injective constructor is a
  faithful model of the encoding.
* Wall-clock time (`TimestampSigner.get_timestamp`) and the randomness of
  `uuid.uuid4()` are oracle arguments (`now : Nat`, `fresh : String`) threaded
  through the operations.
* The SQLAlchemy-backed table of `SessionRecord`s is a list of records; the
  primary-key uniqueness invariant appears as a `Nodup` hypothesis where a
  theorem needs it.
* A Python value of `None` together with exceptions that escape a function are
  modelled with `Option`: `none` is an uncaught exception.
-/

namespace Sessions

/-- JSON scalar values stored in a session mapping. -/
inductive JVal where
  | str (s : String)
  | num (n : Int)
  | bool (b : Bool)
  | null
deriving DecidableEq

/-- A Python `dict` of JSON-serializable values, as an association list
(`typing.Dict[str, Any]` in `sessions.py`). -/
abbrev SessionData := List (String × JVal)

/-- The payload a signer signs: either `b64encode(json.dumps(data))` of a
session mapping, or `b64encode(new_id.encode("utf-8"))` of an identifier
string. -/
inductive Payload where
  | jsonB64 (d : SessionData)
  | b64 (s : String)
deriving DecidableEq

/-- A Python string in the session subsystem.  `raw s` is an arbitrary
unstructured string (including everything a client can forge without the
secret key); `tsigned key p ts` is the output of
`TimestampSigner(key).sign(p)` performed at time `ts`; `signedP key p` is the
output of `Signer(key).sign(p)`. -/
inductive PStr where
  | raw (s : String)
  | tsigned (key : String) (p : Payload) (ts : Nat)
  | signedP (key : String) (p : Payload)
deriving DecidableEq

/-- The two `itsdangerous` exceptions caught by the backends. -/
inductive SigError where
  | badSignature
  | signatureExpired
deriving DecidableEq

/-- Model of `itsdangerous.TimestampSigner` (only the secret key matters). -/
structure TimestampSigner where
  secret_key : String
deriving DecidableEq

/-- `TimestampSigner.sign`: embeds the current timestamp `now`. -/
def TimestampSigner.sign (sg : TimestampSigner) (now : Nat) (p : Payload) : PStr :=
  PStr.tsigned sg.secret_key p now

/-- `TimestampSigner.unsign(value, max_age)` at wall-clock time `now`:
`BadSignature` unless the value was genuinely signed with the same key,
`SignatureExpired` when the embedded timestamp is more than `max_age`
seconds old. -/
def TimestampSigner.unsign (sg : TimestampSigner) (value : PStr) (max_age : Nat)
    (now : Nat) : Except SigError Payload :=
  match value with
  | PStr.tsigned key p ts =>
      if key = sg.secret_key then
        if now - ts > max_age then Except.error SigError.signatureExpired
        else Except.ok p
      else Except.error SigError.badSignature
  | _ => Except.error SigError.badSignature

/-- Model of the plain (non-timestamped) `itsdangerous.Signer`. -/
structure Signer where
  secret_key : String
deriving DecidableEq

/-- `Signer.sign`. -/
def Signer.sign (sg : Signer) (p : Payload) : PStr :=
  PStr.signedP sg.secret_key p

/-- `Signer.unsign`: no expiry, `BadSignature` unless signed with the key. -/
def Signer.unsign (sg : Signer) (value : PStr) : Except SigError Payload :=
  match value with
  | PStr.signedP key p =>
      if key = sg.secret_key then Except.ok p
      else Except.error SigError.badSignature
  | _ => Except.error SigError.badSignature

/-- `json.loads(b64decode p)`: recovers the mapping from a `jsonB64` payload;
on any other payload the decode raises (modelled by `none`), an exception the
backends do not catch. -/
def decodePayload : Payload → Option SessionData
  | Payload.jsonB64 d => some d
  | Payload.b64 _ => none

/-- Truthiness of a Python string: only the empty string is falsy (all signed
values are non-empty strings). -/
def strTruthy : PStr → Bool
  | PStr.raw s => !(s == "")
  | PStr.tsigned _ _ _ => true
  | PStr.signedP _ _ => true

/-- Truthiness of an `Optional[str]`: `None` and `""` are falsy. -/
def idTruthy : Option PStr → Bool
  | none => false
  | some s => strTruthy s

/-- `CookieBackend.__init__` state: a `TimestampSigner` over the secret key and
the configured `max_age` in seconds. -/
structure CookieBackend where
  signer : TimestampSigner
  max_age : Nat
deriving DecidableEq

/-- `CookieBackend(secret_key, max_age)`. -/
def CookieBackend.init (secret_key : String) (max_age : Nat) : CookieBackend :=
  { signer := { secret_key := secret_key }, max_age := max_age }

/-- `CookieBackend.read`: unsign the identifier with `max_age`; on
`BadSignature`/`SignatureExpired` return `{}`; on success decode the payload
(whose failure, outside the except clause, would propagate: `none`). -/
def CookieBackend.read (b : CookieBackend) (now : Nat) (session_id : PStr) :
    Option SessionData :=
  match b.signer.unsign session_id b.max_age now with
  | Except.ok data => decodePayload data
  | Except.error _ => some []

/-- `CookieBackend.write`: base64-encode the JSON dump of `data` and sign it
with the timestamped signer; the `session_id` argument is never used. -/
def CookieBackend.write (b : CookieBackend) (now : Nat) (data : SessionData)
    (_session_id : Option PStr) : PStr :=
  b.signer.sign now (Payload.jsonB64 data)

/-- `CookieBackend.exists`: always `False` (the server holds no record). -/
def CookieBackend.existsId (_b : CookieBackend) (_session_id : PStr) : Bool :=
  false

/-- A row of the `Session` table in `app/auth/tables.py` (named
`SessionRecord` here to avoid clashing with the orchestrator). -/
structure SessionRecord where
  id : PStr
  created : Nat
  max_age : Nat
  expires : Nat
  data : PStr
deriving DecidableEq

/-- The durable table consumed by `DatabaseBackend`; primary-key uniqueness of
`id` is carried as a `Nodup` hypothesis where needed. -/
abbrev Store := List SessionRecord

/-- `SessionStore.query.get(session_id)`: primary-key lookup. -/
def queryGet : Store → PStr → Option SessionRecord
  | [], _ => none
  | r :: rest, session_id =>
      if r.id = session_id then some r else queryGet rest session_id

/-- Mutating the `data` field of the fetched row and calling `save()`:
replaces the first (under the primary key, the only) matching row. -/
def updateData : Store → PStr → PStr → Store
  | [], _, _ => []
  | r :: rest, session_id, d =>
      if r.id = session_id then { r with data := d } :: rest
      else r :: updateData rest session_id d

/-- `instance.delete()` on the row fetched by primary key: removes the first
matching row. -/
def deleteRow : Store → PStr → Store
  | [], _ => []
  | r :: rest, session_id =>
      if r.id = session_id then rest else r :: deleteRow rest session_id

/-- `DatabaseBackend.__init__` state: a timestamped signer for payloads, a
plain signer for identifiers (same secret key), and the configured
`max_age`. -/
structure DatabaseBackend where
  signer : TimestampSigner
  id_signer : Signer
  max_age : Nat
deriving DecidableEq

/-- `DatabaseBackend(secret_key, max_age)`. -/
def DatabaseBackend.init (secret_key : String) (max_age : Nat) : DatabaseBackend :=
  { signer := { secret_key := secret_key }
    id_signer := { secret_key := secret_key }
    max_age := max_age }

/-- `DatabaseBackend.read`: look up the row; if present, unsign its `data`
column with `max_age` and decode it, treating `BadSignature` and
`SignatureExpired` as "no data"; in every failure case return `{}` with the
row left in place. -/
def DatabaseBackend.read (b : DatabaseBackend) (now : Nat) (store : Store)
    (session_id : PStr) : Option SessionData :=
  match queryGet store session_id with
  | some instanceRow =>
      match b.signer.unsign instanceRow.data b.max_age now with
      | Except.ok data => decodePayload data
      | Except.error _ => some []
  | none => some []

/-- `DatabaseBackend._save`: upsert.  If a row exists for `session_id`,
overwrite only its `data`; otherwise insert a new row with
`created = now` (the signer's current timestamp), the configured `max_age`,
and `expires = created + max_age`. -/
def DatabaseBackend.save (b : DatabaseBackend) (now : Nat) (store : Store)
    (session_id : PStr) (data : PStr) : Store :=
  match queryGet store session_id with
  | some _ => updateData store session_id data
  | none =>
      let created := now
      let expires := created + b.max_age
      store ++ [{ id := session_id, created := created, max_age := b.max_age,
                  expires := expires, data := data }]

/-- `DatabaseBackend.write`: when `session_id` is falsy (absent or empty),
generate a fresh id (`fresh` is the `uuid.uuid4()` oracle), base64-encode it
and sign it with the plain id signer; then sign the encoded JSON dump of
`data` with the timestamped signer and upsert the row.  Returns the
identifier together with the updated store. -/
def DatabaseBackend.write (b : DatabaseBackend) (now : Nat) (fresh : String)
    (store : Store) (data : SessionData) (session_id : Option PStr) :
    PStr × Store :=
  let sid : PStr :=
    match session_id with
    | some s => if strTruthy s then s else b.id_signer.sign (Payload.b64 fresh)
    | none => b.id_signer.sign (Payload.b64 fresh)
  let signed_data := b.signer.sign now (Payload.jsonB64 data)
  (sid, b.save now store sid signed_data)

/-- `DatabaseBackend.remove`: delete the matching row if present, else
no-op. -/
def DatabaseBackend.remove (_b : DatabaseBackend) (store : Store)
    (session_id : PStr) : Store :=
  match queryGet store session_id with
  | some _ => deleteRow store session_id
  | none => store

/-- `DatabaseBackend.exists`: row presence only. -/
def DatabaseBackend.existsId (_b : DatabaseBackend) (store : Store)
    (session_id : PStr) : Bool :=
  (queryGet store session_id).isSome

/-- `SessionBackend.generate_id` (the default, overridden by neither
backend): `str(uuid.uuid4())`, whose randomness is the `fresh` oracle.  The
result is a plain, unsigned string. -/
def SessionBackend.generate_id (fresh : String) : String :=
  fresh

/-- The two concrete backends behind the `SessionBackend` contract. -/
inductive Backend where
  | cookie (b : CookieBackend)
  | db (b : DatabaseBackend)
deriving DecidableEq

/-- Dispatch of `read` (the cookie variant ignores the store). -/
def Backend.read : Backend → Nat → Store → PStr → Option SessionData
  | Backend.cookie b, now, _, session_id => b.read now session_id
  | Backend.db b, now, store, session_id => b.read now store session_id

/-- Dispatch of `write`; the cookie variant leaves the store untouched. -/
def Backend.write : Backend → Nat → String → Store → SessionData →
    Option PStr → PStr × Store
  | Backend.cookie b, now, _, store, data, session_id =>
      (b.write now data session_id, store)
  | Backend.db b, now, fresh, store, data, session_id =>
      b.write now fresh store data session_id

/-- Dispatch of `remove`; the cookie variant is a no-op. -/
def Backend.remove : Backend → Store → PStr → Store
  | Backend.cookie _, store, _ => store
  | Backend.db b, store, session_id => b.remove store session_id

/-- Dispatch of `exists`. -/
def Backend.existsId : Backend → Store → PStr → Bool
  | Backend.cookie b, _, session_id => b.existsId session_id
  | Backend.db b, store, session_id => b.existsId store session_id

/-- Dispatch of `generate_id`: both backends inherit the base-class default. -/
def Backend.generate_id : Backend → String → String
  | _, fresh => SessionBackend.generate_id fresh

/-- Python dict lookup `d[k]` / `d.get(k)` as `Option`. -/
def dictGet : SessionData → String → Option JVal
  | [], _ => none
  | p :: rest, k => if p.1 = k then some p.2 else dictGet rest k

/-- `k in d`. -/
def dictHasKey (d : SessionData) (k : String) : Bool :=
  (dictGet d k).isSome

/-- `d[k] = v`: replace in place when the key is present, else append (Python
dicts preserve insertion order). -/
def dictSet : SessionData → String → JVal → SessionData
  | [], k, v => [(k, v)]
  | p :: rest, k, v =>
      if p.1 = k then (k, v) :: rest else p :: dictSet rest k v

/-- Removal of a key (`del d[k]` / the removing half of `d.pop(k)`); leaves
the list unchanged when the key is absent. -/
def dictRemove : SessionData → String → SessionData
  | [], _ => []
  | p :: rest, k => if p.1 = k then rest else p :: dictRemove rest k

/-- `d.update(other)`: `d[k] = v` for each pair of `other` in order. -/
def dictUpdate (d : SessionData) : SessionData → SessionData
  | [] => d
  | p :: rest => dictUpdate (dictSet d p.1 p.2) rest

/-- The value the *last* occurrence of `k` in `other` carries, if any: what
`d.update(other)` leaves under `k`. -/
def dictGetLast : SessionData → String → Option JVal
  | [], _ => none
  | p :: rest, k =>
      match dictGetLast rest k with
      | some v => some v
      | none => if p.1 = k then some p.2 else none

/-- One backend call made by a `Session` operation (for call-counting
properties). -/
inductive BEvent where
  | readCall (session_id : PStr)
  | writeCall (session_id : Option PStr)
  | removeCall (session_id : PStr)
  | generateCall
deriving DecidableEq

/-- In-memory state of the `Session` orchestrator: `session_id`, the owned
`_data` mapping, and the `_is_loaded` / `_is_modified` flags. -/
structure Session where
  session_id : Option PStr
  data : SessionData
  is_loaded : Bool
  is_modified : Bool
deriving DecidableEq

/-- `Session(backend, session_id)`: empty data, both flags cleared (the
backend reference is passed to each operation instead of being stored). -/
def Session.init (session_id : Option PStr) : Session :=
  { session_id := session_id, data := [], is_loaded := false,
    is_modified := false }

/-- `Session.load`: no-op when already loaded; otherwise adopt the backend's
`read` result when `session_id` is truthy, else `{}`; mark loaded.  Returns
the new state and the trace of backend calls (`none` would be a propagated
backend exception). -/
def Session.load (bk : Backend) (now : Nat) (store : Store) (s : Session) :
    Option (Session × List BEvent) :=
  if s.is_loaded then some (s, [])
  else
    match s.session_id with
    | some sid =>
        if strTruthy sid then
          (bk.read now store sid).map
            (fun d => ({ s with data := d, is_loaded := true },
                       [BEvent.readCall sid]))
        else some ({ s with data := [], is_loaded := true }, [])
    | none => some ({ s with data := [], is_loaded := true }, [])

/-- `Session.persist`: `write(data, session_id)`, adopt the returned
identifier, return it (plus the updated store and the call trace). -/
def Session.persist (bk : Backend) (now : Nat) (fresh : String) (store : Store)
    (s : Session) : PStr × Session × Store × List BEvent :=
  let ws := bk.write now fresh store s.data s.session_id
  (ws.1, { s with session_id := some ws.1 }, ws.2,
   [BEvent.writeCall s.session_id])

/-- `Session.delete`: when `session_id` is truthy, clear `data`, mark
modified and call backend `remove`; otherwise do nothing.  `session_id`
itself is never changed. -/
def Session.delete (bk : Backend) (store : Store) (s : Session) :
    Session × Store × List BEvent :=
  match s.session_id with
  | some sid =>
      if strTruthy sid then
        ({ s with data := [], is_modified := true }, bk.remove store sid,
         [BEvent.removeCall sid])
      else (s, store, [])
  | none => (s, store, [])

/-- `Session.regenerate_id`: adopt a fresh identifier from the backend's
`generate_id` (a plain unsigned string), mark modified, return it. -/
def Session.regenerate_id (bk : Backend) (fresh : String) (s : Session) :
    PStr × Session × List BEvent :=
  let nid := PStr.raw (bk.generate_id fresh)
  (nid, { s with session_id := some nid, is_modified := true },
   [BEvent.generateCall])

/-- `Session.flush`: mark modified, `delete()`, then `regenerate_id()`. -/
def Session.flush (bk : Backend) (store : Store) (fresh : String)
    (s : Session) : PStr × Session × Store × List BEvent :=
  let s0 : Session := { s with is_modified := true }
  let del := Session.delete bk store s0
  let regen := Session.regenerate_id bk fresh del.1
  (regen.1, regen.2.1, del.2.1, del.2.2 ++ regen.2.2)

/-- `Session.__setitem__`. -/
def Session.setItem (k : String) (v : JVal) (s : Session) : Session :=
  { s with is_modified := true, data := dictSet s.data k v }

/-- `Session.__delitem__`: the flag is assigned *before* `del`, so a
`KeyError` on an absent key (the `Bool` component) still leaves the flag
set. -/
def Session.delItem (k : String) (s : Session) : Session × Bool :=
  let s1 : Session := { s with is_modified := true }
  if dictHasKey s1.data k then ({ s1 with data := dictRemove s1.data k }, false)
  else (s1, true)

/-- `Session.pop(key, default)`. -/
def Session.pop (k : String) (default : JVal) (s : Session) : JVal × Session :=
  let s1 : Session := { s with is_modified := true }
  match dictGet s.data k with
  | some v => (v, { s1 with data := dictRemove s1.data k })
  | none => (default, s1)

/-- `Session.setdefault(key, default)`. -/
def Session.setdefault (k : String) (v : JVal) (s : Session) : Session :=
  let s1 : Session := { s with is_modified := true }
  if dictHasKey s.data k then s1 else { s1 with data := s.data ++ [(k, v)] }

/-- `Session.clear`. -/
def Session.clear (s : Session) : Session :=
  { s with is_modified := true, data := [] }

/-- `Session.update(other)`. -/
def Session.update (other : SessionData) (s : Session) : Session :=
  { s with is_modified := true, data := dictUpdate s.data other }

/-- `Session.get(name, default)`: returns the value and the (unchanged)
receiver state, making the frame property explicit. -/
def Session.get (k : String) (default : JVal) (s : Session) : JVal × Session :=
  ((dictGet s.data k).getD default, s)

/-- `Session.keys`. -/
def Session.keys (s : Session) : List String × Session :=
  (s.data.map (fun p => p.1), s)

/-- `Session.values`. -/
def Session.values (s : Session) : List JVal × Session :=
  (s.data.map (fun p => p.2), s)

/-- `Session.items`. -/
def Session.items (s : Session) : SessionData × Session :=
  (s.data, s)

/-- `Session.__contains__`. -/
def Session.contains (k : String) (s : Session) : Bool × Session :=
  (dictHasKey s.data k, s)

/-- `Session.is_empty`: `len(self.keys()) == 0`. -/
def Session.is_empty (s : Session) : Bool × Session :=
  ((s.data.map (fun p => p.1)).length == 0, s)

deriving instance DecidableEq for Except

/-! ## Helper lemmas about the store -/

theorem queryGet_eq_none_iff (store : Store) (x : PStr) :
    queryGet store x = none ↔ ∀ r ∈ store, r.id ≠ x := by
  induction store with
  | nil => simp [queryGet]
  | cons r rest ih =>
      by_cases h : r.id = x
      · simp [queryGet, h]
      · simp [queryGet, h, ih]

theorem queryGet_append_right (store rest : Store) (x : PStr)
    (h : queryGet store x = none) :
    queryGet (store ++ rest) x = queryGet rest x := by
  induction store with
  | nil => simp
  | cons r tl ih =>
      by_cases hr : r.id = x
      · simp [queryGet, hr] at h
      · simp [queryGet, hr] at h ⊢
        exact ih h

theorem updateData_append_right (store rest : Store) (x : PStr) (d : PStr)
    (h : queryGet store x = none) :
    updateData (store ++ rest) x d = store ++ updateData rest x d := by
  induction store with
  | nil => simp
  | cons r tl ih =>
      by_cases hr : r.id = x
      · simp [queryGet, hr] at h
      · simp [queryGet, hr] at h ⊢
        simp [updateData, hr]
        exact ih h

theorem queryGet_updateData_isSome (store : Store) (x : PStr) (d : PStr) :
    (queryGet (updateData store x d) x).isSome = (queryGet store x).isSome := by
  induction store with
  | nil => simp [updateData]
  | cons r rest ih =>
      by_cases hr : r.id = x
      · simp [updateData, queryGet, hr]
      · simp [updateData, queryGet, hr, ih]

theorem existsId_save (b : DatabaseBackend) (now : Nat) (store : Store)
    (x : PStr) (d : PStr) :
    DatabaseBackend.existsId b (b.save now store x d) x = true := by
  unfold DatabaseBackend.save
  cases hq : queryGet store x with
  | some r =>
      simp [DatabaseBackend.existsId, queryGet_updateData_isSome, hq]
  | none =>
      simp [DatabaseBackend.existsId, queryGet_append_right _ _ _ hq, queryGet]

theorem save_ids_nodup (b : DatabaseBackend) (now : Nat) (store : Store)
    (x : PStr) (d : PStr) (h : (store.map SessionRecord.id).Nodup) :
    ((b.save now store x d).map SessionRecord.id).Nodup := by
  unfold DatabaseBackend.save
  cases hq : queryGet store x with
  | some r =>
      have hids : (updateData store x d).map SessionRecord.id
          = store.map SessionRecord.id := by
        clear hq h
        induction store with
        | nil => simp [updateData]
        | cons hd tl ih =>
            by_cases hr : hd.id = x
            · simp [updateData, hr]
            · simp [updateData, hr, ih]
      simpa [hids] using h
  | none =>
      have hnotin : x ∉ store.map SessionRecord.id := by
        rw [queryGet_eq_none_iff] at hq
        simp only [List.mem_map]
        rintro ⟨r, hr, hrx⟩
        exact hq r hr hrx
      simp only [List.map_append, List.map_cons, List.map_nil]
      rw [List.nodup_append]
      refine ⟨h, List.nodup_singleton _, ?_⟩
      intro a ha hb
      simp only [List.mem_singleton] at hb
      subst hb
      exact hnotin ha

theorem queryGet_deleteRow_nodup (store : Store) (x : PStr)
    (h : (store.map SessionRecord.id).Nodup) :
    queryGet (deleteRow store x) x = none := by
  induction store with
  | nil => simp [deleteRow, queryGet]
  | cons r rest ih =>
      simp only [List.map_cons, List.nodup_cons] at h
      by_cases hr : r.id = x
      · simp only [deleteRow, hr, if_true, if_pos rfl]
        rw [queryGet_eq_none_iff]
        intro q hq hqx
        exact h.1 (by rw [hr, ← hqx]; exact List.mem_map_of_mem _ hq)
      · simp [deleteRow, hr, queryGet]
        exact ih h.2

theorem existsId_remove_of_nodup (b : DatabaseBackend) (store : Store)
    (x : PStr) (h : (store.map SessionRecord.id).Nodup) :
    DatabaseBackend.existsId b (b.remove store x) x = false := by
  unfold DatabaseBackend.remove
  cases hq : queryGet store x with
  | some r => simp [DatabaseBackend.existsId, queryGet_deleteRow_nodup _ _ h]
  | none => simp [DatabaseBackend.existsId, hq]

theorem deleteRow_no_id (store : Store) (x y : PStr)
    (h : ∀ r ∈ store, r.id ≠ y) :
    ∀ r ∈ deleteRow store x, r.id ≠ y := by
  induction store with
  | nil => simp [deleteRow]
  | cons r rest ih =>
      simp only [List.mem_cons, forall_eq_or_imp] at h
      by_cases hr : r.id = x
      · simpa [deleteRow, hr] using h.2
      · simp only [deleteRow, hr, if_false, List.mem_cons, forall_eq_or_imp]
        exact ⟨h.1, ih h.2⟩

theorem remove_no_id (b : DatabaseBackend) (store : Store) (x y : PStr)
    (h : ∀ r ∈ store, r.id ≠ y) :
    ∀ r ∈ b.remove store x, r.id ≠ y := by
  unfold DatabaseBackend.remove
  cases queryGet store x with
  | some r => exact deleteRow_no_id store x y h
  | none => exact h

/-! ## Helper lemmas about the dict model -/

theorem dictGet_dictSet (d : SessionData) (k k' : String) (v : JVal) :
    dictGet (dictSet d k v) k' = if k = k' then some v else dictGet d k' := by
  induction d with
  | nil => by_cases h : k = k' <;> simp [dictSet, dictGet, h]
  | cons p rest ih =>
      by_cases hp : p.1 = k
      · by_cases h : k = k' <;> simp [dictSet, dictGet, hp, h]
      · by_cases h : p.1 = k'
        · have h1 : ¬ k = k' := fun hk => hp (hk ▸ h)
          have h2 : ¬ k' = k := fun hk => h1 hk.symm
          simp [dictSet, dictGet, hp, h, h1, h2]
        · simp [dictSet, dictGet, hp, h, ih]

theorem dictGet_dictRemove_self (d : SessionData) (k : String)
    (h : (d.map Prod.fst).Nodup) :
    dictGet (dictRemove d k) k = none := by
  induction d with
  | nil => simp [dictRemove, dictGet]
  | cons p rest ih =>
      simp only [List.map_cons, List.nodup_cons] at h
      by_cases hp : p.1 = k
      · simp only [dictRemove, hp, if_pos rfl, if_true]
        cases hg : dictGet rest k with
        | none => rfl
        | some v =>
            exfalso
            have : k ∈ rest.map Prod.fst := by
              clear ih h
              induction rest with
              | nil => simp [dictGet] at hg
              | cons q tl ih2 =>
                  by_cases hq : q.1 = k
                  · simp [hq]
                  · simp only [dictGet, hq, if_false] at hg
                    simp [ih2 hg]
            exact h.1 (hp ▸ this)
      · simp [dictRemove, hp, dictGet]
        exact ih h.2

theorem dictGet_dictRemove_other (d : SessionData) (k k' : String)
    (h : k' ≠ k) :
    dictGet (dictRemove d k) k' = dictGet d k' := by
  induction d with
  | nil => simp [dictRemove]
  | cons p rest ih =>
      have hkk : ¬ k = k' := fun hk => h hk.symm
      by_cases hp : p.1 = k
      · have hp' : ¬ p.1 = k' := fun hc => h (hc ▸ hp ▸ rfl)
        simp [dictRemove, dictGet, hp, hp', hkk, h]
      · by_cases hp' : p.1 = k'
        · simp [dictRemove, dictGet, hp, hp', hkk, h]
        · simp [dictRemove, dictGet, hp, hp', ih]

theorem dictGet_append_right (d rest : SessionData) (k : String)
    (h : dictGet d k = none) :
    dictGet (d ++ rest) k = dictGet rest k := by
  induction d with
  | nil => simp
  | cons p tl ih =>
      by_cases hp : p.1 = k
      · simp [dictGet, hp] at h
      · simp only [dictGet, hp, if_false, List.cons_append] at h ⊢
        exact ih h

theorem dictGet_dictUpdate (o : SessionData) (k : String) :
    ∀ d : SessionData, dictGet (dictUpdate d o) k =
      match dictGetLast o k with
      | some v => some v
      | none => dictGet d k := by
  induction o with
  | nil => intro d; simp [dictUpdate, dictGetLast]
  | cons p rest ih =>
      intro d
      simp only [dictUpdate, dictGetLast]
      rw [ih (dictSet d p.1 p.2)]
      cases hlast : dictGetLast rest k with
      | some v => simp
      | none =>
          simp only []
          rw [dictGet_dictSet]
          by_cases hp : p.1 = k <;> simp [hp]

theorem dictGet_append (d rest : SessionData) (k : String) :
    dictGet (d ++ rest) k =
      match dictGet d k with
      | some v => some v
      | none => dictGet rest k := by
  induction d with
  | nil => simp [dictGet]
  | cons p tl ih =>
      by_cases hp : p.1 = k
      · simp [dictGet, hp]
      · simp [dictGet, hp, ih]

/-! ## Claim theorems -/

/-- C1: on both backends, `read` never raises a signature error for a
client-supplied identifier: whenever the cookie identifier fails MAC
verification or is expired (its `unsign` yields an error), and whenever the
database identifier is missing from storage or its stored payload fails
`unsign`, `read` returns the empty mapping `{}`. -/
theorem read_failure_yields_empty
    (cb : CookieBackend) (dbb : DatabaseBackend) (now : Nat) (store : Store)
    (sid : PStr) (e : SigError)
    (hc : cb.signer.unsign sid cb.max_age now = Except.error e)
    (hd : queryGet store sid = none ∨
      ∃ r, queryGet store sid = some r ∧
        ∃ e2, dbb.signer.unsign r.data dbb.max_age now = Except.error e2) :
    cb.read now sid = some [] ∧ dbb.read now store sid = some [] := by
  constructor
  · simp [CookieBackend.read, hc]
  · rcases hd with h | ⟨r, hr, e2, he2⟩
    · simp [DatabaseBackend.read, h]
    · simp [DatabaseBackend.read, hr, he2]

/-- Witness for C1 at a concrete forged identifier and empty store. -/
theorem read_failure_yields_empty_witness :
    (CookieBackend.init "k" 60).read 0 (PStr.raw "forged") = some [] ∧
    (DatabaseBackend.init "k" 60).read 0 [] (PStr.raw "forged") = some [] :=
  read_failure_yields_empty (CookieBackend.init "k" 60)
    (DatabaseBackend.init "k" 60) 0 [] (PStr.raw "forged")
    SigError.badSignature rfl (Or.inl rfl)

/-- C2: writing a mapping through `CookieBackend.write` and reading the
returned identifier back with `CookieBackend.read` yields the same mapping,
provided fewer than `max_age` seconds elapsed between the sign and the
unsign. -/
theorem cookie_write_read_roundtrip
    (cb : CookieBackend) (d : SessionData) (t_w t_r : Nat) (sid : Option PStr)
    (h : t_r - t_w < cb.max_age) :
    cb.read t_r (cb.write t_w d sid) = some d := by
  have hle : ¬ (t_r - t_w > cb.max_age) := by omega
  simp [CookieBackend.read, CookieBackend.write, TimestampSigner.sign,
    TimestampSigner.unsign, hle, decodePayload]

/-- Witness for C2 at a concrete mapping, ten seconds of elapsed time and a
sixty-second `max_age`. -/
theorem cookie_write_read_roundtrip_witness :
    (CookieBackend.init "k" 60).read 10
      ((CookieBackend.init "k" 60).write 0 [("a", JVal.num 1)] none) =
      some [("a", JVal.num 1)] :=
  cookie_write_read_roundtrip (CookieBackend.init "k" 60)
    [("a", JVal.num 1)] 0 10 none (by decide)

/-- C3 (failing evaluation): after `Session.regenerate_id` hands out the raw
uuid `"u1"` (the base-class `generate_id` does not sign it), `Session.persist`
over `DatabaseBackend` stores the record under — and returns to the client —
exactly `PStr.raw "u1"`, a string that does not verify under the backend's
identifier signer.  This contradicts the claim that every identifier stored
by a reachable `DatabaseBackend.write` call is plain-signed. -/
theorem regenerate_persist_stores_unsigned_id :
    (Session.persist (Backend.db (DatabaseBackend.init "k" 60)) 5 "u2" []
        (Session.regenerate_id (Backend.db (DatabaseBackend.init "k" 60)) "u1"
          { session_id := none, data := [("user", JVal.str "alice")],
            is_loaded := true, is_modified := false }).2.1).1 =
      PStr.raw "u1" ∧
    (queryGet
        (Session.persist (Backend.db (DatabaseBackend.init "k" 60)) 5 "u2" []
            (Session.regenerate_id (Backend.db (DatabaseBackend.init "k" 60))
              "u1"
              { session_id := none, data := [("user", JVal.str "alice")],
                is_loaded := true, is_modified := false }).2.1).2.2.1
        (PStr.raw "u1")).isSome = true ∧
    (DatabaseBackend.init "k" 60).id_signer.unsign (PStr.raw "u1") =
      Except.error SigError.badSignature := by
  decide

/-- C4 (counterexample): the claim fails on `CookieBackend` — immediately
after `write`, `exists` on the returned identifier is `false`, not `true`. -/
theorem cookie_exists_false_after_write :
    CookieBackend.existsId (CookieBackend.init "k" 60)
      ((CookieBackend.init "k" 60).write 0 [("a", JVal.num 1)] none) = false :=
  rfl

/-- C4 (amended): for `DatabaseBackend` (with the table's primary-key
uniqueness invariant), `exists` is `true` immediately after `write` and
`false` immediately after `remove` of the same identifier; for
`CookieBackend`, `exists` returns `false` always — in particular immediately
after `write` (and trivially after `remove`). -/
theorem exists_after_write_and_remove
    (dbb : DatabaseBackend) (cb : CookieBackend) (now : Nat) (fresh : String)
    (store : Store) (d : SessionData) (sidArg : Option PStr) (cid : PStr)
    (hnodup : (store.map SessionRecord.id).Nodup) :
    DatabaseBackend.existsId dbb (dbb.write now fresh store d sidArg).2
      (dbb.write now fresh store d sidArg).1 = true ∧
    DatabaseBackend.existsId dbb
      (dbb.remove (dbb.write now fresh store d sidArg).2
        (dbb.write now fresh store d sidArg).1)
      (dbb.write now fresh store d sidArg).1 = false ∧
    CookieBackend.existsId cb (cb.write now d sidArg) = false ∧
    CookieBackend.existsId cb cid = false := by
  refine ⟨?_, ?_, rfl, rfl⟩
  · simp only [DatabaseBackend.write]
    exact existsId_save _ _ _ _ _
  · simp only [DatabaseBackend.write]
    exact existsId_remove_of_nodup _ _ _
      (save_ids_nodup _ _ _ _ _ hnodup)

/-- Witness for C4 (amended) on the empty store. -/
theorem exists_after_write_and_remove_witness :
    DatabaseBackend.existsId (DatabaseBackend.init "k" 60)
      ((DatabaseBackend.init "k" 60).write 0 "u1" [] [("a", JVal.num 1)]
        none).2
      ((DatabaseBackend.init "k" 60).write 0 "u1" [] [("a", JVal.num 1)]
        none).1 = true ∧
    DatabaseBackend.existsId (DatabaseBackend.init "k" 60)
      ((DatabaseBackend.init "k" 60).remove
        ((DatabaseBackend.init "k" 60).write 0 "u1" [] [("a", JVal.num 1)]
          none).2
        ((DatabaseBackend.init "k" 60).write 0 "u1" [] [("a", JVal.num 1)]
          none).1)
      ((DatabaseBackend.init "k" 60).write 0 "u1" [] [("a", JVal.num 1)]
        none).1 = false := by
  have h := exists_after_write_and_remove (DatabaseBackend.init "k" 60)
    (CookieBackend.init "k" 60) 0 "u1" [] [("a", JVal.num 1)] none
    (PStr.raw "x") (by decide)
  exact ⟨h.1, h.2.1⟩

/-- C10: `CookieBackend.write` never depends on the supplied `session_id`
argument — at the same signer timestamp, any two identifier arguments
(including `None`) produce the same freshly signed result. -/
theorem cookie_write_ignores_session_id (cb : CookieBackend) (now : Nat)
    (d : SessionData) (s1 s2 : Option PStr) :
    cb.write now d s1 = cb.write now d s2 :=
  rfl

/-- C5: `DatabaseBackend.write` with no identifier creates exactly one
record — the store grows by exactly the new row, whose fields are
`created = now₁`, the configured `max_age`, `expires = created + max_age` and
the signed payload; a second `write` under the returned identifier overwrites
only that row's `data` field (same `id`, `created`, `max_age`, `expires`) and
creates no second row.  `hfresh` is the freshness of the generated uuid. -/
theorem db_write_upsert
    (dbb : DatabaseBackend) (now1 now2 : Nat) (f1 f2 : String) (store : Store)
    (d d2 : SessionData)
    (hfresh : queryGet store (dbb.id_signer.sign (Payload.b64 f1)) = none) :
    (dbb.write now1 f1 store d none).1 = dbb.id_signer.sign (Payload.b64 f1) ∧
    (dbb.write now1 f1 store d none).2 =
      store ++ [{ id := dbb.id_signer.sign (Payload.b64 f1), created := now1,
                  max_age := dbb.max_age, expires := now1 + dbb.max_age,
                  data := dbb.signer.sign now1 (Payload.jsonB64 d) }] ∧
    (dbb.write now2 f2 (dbb.write now1 f1 store d none).2 d2
        (some (dbb.write now1 f1 store d none).1)).1 =
      dbb.id_signer.sign (Payload.b64 f1) ∧
    (dbb.write now2 f2 (dbb.write now1 f1 store d none).2 d2
        (some (dbb.write now1 f1 store d none).1)).2 =
      store ++ [{ id := dbb.id_signer.sign (Payload.b64 f1), created := now1,
                  max_age := dbb.max_age, expires := now1 + dbb.max_age,
                  data := dbb.signer.sign now2 (Payload.jsonB64 d2) }] := by
  have h2 : (dbb.write now1 f1 store d none).2 =
      store ++ [{ id := dbb.id_signer.sign (Payload.b64 f1), created := now1,
                  max_age := dbb.max_age, expires := now1 + dbb.max_age,
                  data := dbb.signer.sign now1 (Payload.jsonB64 d) }] := by
    simp [DatabaseBackend.write, DatabaseBackend.save, hfresh]
  have htruthy : strTruthy (dbb.id_signer.sign (Payload.b64 f1)) = true := rfl
  have h3 : (dbb.write now2 f2 (dbb.write now1 f1 store d none).2 d2
      (some (dbb.write now1 f1 store d none).1)).1 =
      dbb.id_signer.sign (Payload.b64 f1) := by
    simp [DatabaseBackend.write, Signer.sign, strTruthy]
  refine ⟨rfl, h2, h3, ?_⟩
  rw [show (dbb.write now2 f2 (dbb.write now1 f1 store d none).2 d2
      (some (dbb.write now1 f1 store d none).1)).2 =
      dbb.save now2 (dbb.write now1 f1 store d none).2
        (dbb.id_signer.sign (Payload.b64 f1))
        (dbb.signer.sign now2 (Payload.jsonB64 d2)) from by
    simp [DatabaseBackend.write, Signer.sign, strTruthy]]
  rw [h2]
  have hget : queryGet
      (store ++ [{ id := dbb.id_signer.sign (Payload.b64 f1), created := now1,
                   max_age := dbb.max_age, expires := now1 + dbb.max_age,
                   data := dbb.signer.sign now1 (Payload.jsonB64 d) }])
      (dbb.id_signer.sign (Payload.b64 f1)) =
      some { id := dbb.id_signer.sign (Payload.b64 f1), created := now1,
             max_age := dbb.max_age, expires := now1 + dbb.max_age,
             data := dbb.signer.sign now1 (Payload.jsonB64 d) } := by
    rw [queryGet_append_right _ _ _ hfresh]
    simp [queryGet]
  rw [DatabaseBackend.save, hget,
    updateData_append_right _ _ _ _ hfresh]
  simp [updateData]

/-- Witness for C5 on the empty store. -/
theorem db_write_upsert_witness :
    ((DatabaseBackend.init "k" 60).write 0 "u1" [] [("a", JVal.num 1)]
      none).2 =
      [{ id := (DatabaseBackend.init "k" 60).id_signer.sign (Payload.b64 "u1"),
         created := 0, max_age := 60, expires := 60,
         data := (DatabaseBackend.init "k" 60).signer.sign 0
           (Payload.jsonB64 [("a", JVal.num 1)]) }] ∧
    ((DatabaseBackend.init "k" 60).write 7 "u2"
        ((DatabaseBackend.init "k" 60).write 0 "u1" [] [("a", JVal.num 1)]
          none).2
        [("b", JVal.num 2)]
        (some ((DatabaseBackend.init "k" 60).write 0 "u1" []
          [("a", JVal.num 1)] none).1)).2 =
      [{ id := (DatabaseBackend.init "k" 60).id_signer.sign (Payload.b64 "u1"),
         created := 0, max_age := 60, expires := 60,
         data := (DatabaseBackend.init "k" 60).signer.sign 7
           (Payload.jsonB64 [("b", JVal.num 2)]) }] := by
  have h := db_write_upsert (DatabaseBackend.init "k" 60) 0 7 "u1" "u2" []
    [("a", JVal.num 1)] [("b", JVal.num 2)] rfl
  exact ⟨h.2.1, h.2.2.2⟩

/-- After `Session.delete`, every store record id that was absent stays
absent (the cookie variant leaves the store alone; the database variant only
deletes). -/
theorem delete_store_no_id (bk : Backend) (store : Store) (s : Session)
    (y : PStr) (h : ∀ r ∈ store, r.id ≠ y) :
    ∀ r ∈ (Session.delete bk store s).2.1, r.id ≠ y := by
  unfold Session.delete
  cases s.session_id with
  | none => simpa using h
  | some sid =>
      by_cases ht : strTruthy sid
      · simp only [ht, if_true]
        cases bk with
        | cookie b => simpa [Backend.remove] using h
        | db b => simpa [Backend.remove] using remove_no_id b store sid y h
      · simpa [ht] using h

/-- Reading a raw (unsigned) identifier that has no row returns `{}` on
either backend. -/
theorem read_raw_of_absent (bk : Backend) (now : Nat) (store : Store)
    (u : String) (h : ∀ r ∈ store, r.id ≠ PStr.raw u) :
    bk.read now store (PStr.raw u) = some [] := by
  cases bk with
  | cookie b =>
      simp [Backend.read, CookieBackend.read, TimestampSigner.unsign]
  | db b =>
      have hq : queryGet store (PStr.raw u) = none :=
        (queryGet_eq_none_iff _ _).2 h
      simp [Backend.read, DatabaseBackend.read, hq]

/-- C6: on either backend, after `flush()` returns `nid`, a fresh `Session`
bound to `nid` observes `{}` after `load()` (the old data is unreachable
through `nid`), and `nid` differs from the identifier held before the flush.
The hypotheses state the uuid oracle's guarantees: the fresh uuid is
non-empty, differs from the old identifier, and indexes no existing row. -/
theorem flush_then_fresh_load_empty
    (bk : Backend) (store : Store) (fresh : String) (s : Session) (now2 : Nat)
    (hfresh : fresh ≠ "")
    (hnotold : s.session_id ≠ some (PStr.raw fresh))
    (hstore : ∀ r ∈ store, r.id ≠ PStr.raw fresh) :
    some (Session.flush bk store fresh s).1 ≠ s.session_id ∧
    Session.load bk now2 (Session.flush bk store fresh s).2.2.1
        (Session.init (some (Session.flush bk store fresh s).1)) =
      some ({ session_id := some (Session.flush bk store fresh s).1,
              data := [], is_loaded := true, is_modified := false },
            [BEvent.readCall (Session.flush bk store fresh s).1]) := by
  have hnid : (Session.flush bk store fresh s).1 = PStr.raw fresh := rfl
  have hst : (Session.flush bk store fresh s).2.2.1 =
      (Session.delete bk store { s with is_modified := true }).2.1 := rfl
  have hstore' := delete_store_no_id bk store { s with is_modified := true }
    (PStr.raw fresh) hstore
  have hread := read_raw_of_absent bk now2
    (Session.delete bk store { s with is_modified := true }).2.1 fresh hstore'
  constructor
  · rw [hnid]
    exact fun hc => hnotold hc.symm
  · rw [hnid, hst]
    have htruthy : strTruthy (PStr.raw fresh) = true := by
      simp [strTruthy, hfresh]
    simp [Session.load, Session.init, htruthy, hread]

/-- Witness for C6: a database-backed session holding data under an old
identifier, flushed with the fresh uuid `"u1"`. -/
theorem flush_then_fresh_load_empty_witness :
    some (Session.flush (Backend.db (DatabaseBackend.init "k" 60))
        [{ id := PStr.raw "old", created := 0, max_age := 60, expires := 60,
           data := (DatabaseBackend.init "k" 60).signer.sign 0
             (Payload.jsonB64 [("a", JVal.num 1)]) }]
        "u1"
        { session_id := some (PStr.raw "old"), data := [("a", JVal.num 1)],
          is_loaded := true, is_modified := false }).1 ≠
      some (PStr.raw "old") ∧
    Session.load (Backend.db (DatabaseBackend.init "k" 60)) 3
        (Session.flush (Backend.db (DatabaseBackend.init "k" 60))
          [{ id := PStr.raw "old", created := 0, max_age := 60, expires := 60,
             data := (DatabaseBackend.init "k" 60).signer.sign 0
               (Payload.jsonB64 [("a", JVal.num 1)]) }]
          "u1"
          { session_id := some (PStr.raw "old"), data := [("a", JVal.num 1)],
            is_loaded := true, is_modified := false }).2.2.1
        (Session.init
          (some (Session.flush (Backend.db (DatabaseBackend.init "k" 60))
            [{ id := PStr.raw "old", created := 0, max_age := 60,
               expires := 60,
               data := (DatabaseBackend.init "k" 60).signer.sign 0
                 (Payload.jsonB64 [("a", JVal.num 1)]) }]
            "u1"
            { session_id := some (PStr.raw "old"),
              data := [("a", JVal.num 1)], is_loaded := true,
              is_modified := false }).1)) =
      some ({ session_id :=
                some (Session.flush (Backend.db (DatabaseBackend.init "k" 60))
                  [{ id := PStr.raw "old", created := 0, max_age := 60,
                     expires := 60,
                     data := (DatabaseBackend.init "k" 60).signer.sign 0
                       (Payload.jsonB64 [("a", JVal.num 1)]) }]
                  "u1"
                  { session_id := some (PStr.raw "old"),
                    data := [("a", JVal.num 1)], is_loaded := true,
                    is_modified := false }).1,
              data := [], is_loaded := true, is_modified := false },
            [BEvent.readCall
              (Session.flush (Backend.db (DatabaseBackend.init "k" 60))
                [{ id := PStr.raw "old", created := 0, max_age := 60,
                   expires := 60,
                   data := (DatabaseBackend.init "k" 60).signer.sign 0
                     (Payload.jsonB64 [("a", JVal.num 1)]) }]
                "u1"
                { session_id := some (PStr.raw "old"),
                  data := [("a", JVal.num 1)], is_loaded := true,
                  is_modified := false }).1]) :=
  flush_then_fresh_load_empty (Backend.db (DatabaseBackend.init "k" 60))
    [{ id := PStr.raw "old", created := 0, max_age := 60, expires := 60,
       data := (DatabaseBackend.init "k" 60).signer.sign 0
         (Payload.jsonB64 [("a", JVal.num 1)]) }]
    "u1"
    { session_id := some (PStr.raw "old"), data := [("a", JVal.num 1)],
      is_loaded := true, is_modified := false }
    3 (by decide) (by decide) (by decide)

/-- C7: `Session.load` is idempotent and performs at most one backend read
per instance: a successful first `load` makes at most one read call, and a
second `load` — at any later time and over any store contents — returns the
state of the first unchanged while making no backend call at all. -/
theorem load_idempotent
    (bk : Backend) (now : Nat) (store : Store) (s s' : Session)
    (ev : List BEvent)
    (h : Session.load bk now store s = some (s', ev)) :
    ev.length ≤ 1 ∧
    ∀ now2 store2, Session.load bk now2 store2 s' = some (s', []) := by
  have hmain : s'.is_loaded = true ∧ ev.length ≤ 1 := by
    unfold Session.load at h
    by_cases hl : s.is_loaded
    · rw [if_pos hl] at h
      simp only [Option.some.injEq, Prod.mk.injEq] at h
      obtain ⟨hs, hev⟩ := h
      rw [← hs, ← hev]
      exact ⟨hl, by simp⟩
    · rw [if_neg hl] at h
      cases hsid : s.session_id with
      | none =>
          rw [hsid] at h
          simp only [Option.some.injEq, Prod.mk.injEq] at h
          obtain ⟨hs, hev⟩ := h
          rw [← hs, ← hev]
          exact ⟨rfl, by simp⟩
      | some sid =>
          rw [hsid] at h
          by_cases ht : strTruthy sid
          · simp only [ht, if_true, Option.map_eq_some'] at h
            obtain ⟨dta, _, hmk⟩ := h
            simp only [Prod.mk.injEq] at hmk
            obtain ⟨hs, hev⟩ := hmk
            rw [← hs, ← hev]
            exact ⟨rfl, by simp⟩
          · simp only [ht, if_false, Bool.false_eq_true,
              Option.some.injEq, Prod.mk.injEq] at h
            obtain ⟨hs, hev⟩ := h
            rw [← hs, ← hev]
            exact ⟨rfl, by simp⟩
  refine ⟨hmain.2, fun now2 store2 => ?_⟩
  unfold Session.load
  simp [hmain.1]

/-- Witness for C7: first load over a cookie backend with an identifier. -/
theorem load_idempotent_witness :
    Session.load (Backend.cookie (CookieBackend.init "k" 60)) 1 []
        { session_id := some (PStr.raw "x"), data := [], is_loaded := true,
          is_modified := false } =
      some ({ session_id := some (PStr.raw "x"), data := [],
              is_loaded := true, is_modified := false }, []) :=
  (load_idempotent (Backend.cookie (CookieBackend.init "k" 60)) 0 []
    (Session.init (some (PStr.raw "x")))
    { session_id := some (PStr.raw "x"), data := [], is_loaded := true,
      is_modified := false }
    [BEvent.readCall (PStr.raw "x")] (by decide)).2 1 []

/-- C8: every mutating operation (`__setitem__`, `__delitem__`, `pop`,
`setdefault`, `clear`, `update`) sets `is_modified`, leaves `session_id`
alone, and applies the Python-dict edit to `data` (characterized pointwise by
lookups; `__delitem__` on an absent key raises `KeyError` — the `Bool`
component — after the flag was already assigned, with `data` unchanged);
every read accessor (`get`, `keys`, `values`, `items`, `__contains__`,
`is_empty`) returns its value with the whole state — `is_modified`, `data`
and `session_id` — unchanged.  `hkeys` is the dict invariant that keys are
unique. -/
theorem mutators_mark_modified_accessors_frame
    (s : Session) (k k' : String) (v dflt : JVal) (o : SessionData)
    (hkeys : (s.data.map Prod.fst).Nodup) :
    (Session.setItem k v s).is_modified = true ∧
    (Session.setItem k v s).session_id = s.session_id ∧
    dictGet (Session.setItem k v s).data k = some v ∧
    (k' ≠ k → dictGet (Session.setItem k v s).data k' = dictGet s.data k') ∧
    ((Session.delItem k s).1).is_modified = true ∧
    ((Session.delItem k s).1).session_id = s.session_id ∧
    dictGet ((Session.delItem k s).1).data k = none ∧
    (k' ≠ k → dictGet ((Session.delItem k s).1).data k' = dictGet s.data k') ∧
    (Session.delItem k s).2 = !(dictHasKey s.data k) ∧
    ((Session.pop k dflt s).2).is_modified = true ∧
    ((Session.pop k dflt s).2).session_id = s.session_id ∧
    (Session.pop k dflt s).1 = (dictGet s.data k).getD dflt ∧
    dictGet ((Session.pop k dflt s).2).data k = none ∧
    (k' ≠ k → dictGet ((Session.pop k dflt s).2).data k' = dictGet s.data k') ∧
    (Session.setdefault k v s).is_modified = true ∧
    (Session.setdefault k v s).session_id = s.session_id ∧
    dictGet (Session.setdefault k v s).data k =
      some ((dictGet s.data k).getD v) ∧
    (k' ≠ k → dictGet (Session.setdefault k v s).data k' = dictGet s.data k') ∧
    (Session.clear s).is_modified = true ∧
    (Session.clear s).session_id = s.session_id ∧
    (Session.clear s).data = [] ∧
    (Session.update o s).is_modified = true ∧
    (Session.update o s).session_id = s.session_id ∧
    dictGet (Session.update o s).data k' =
      (match dictGetLast o k' with
       | some v2 => some v2
       | none => dictGet s.data k') ∧
    (Session.get k dflt s).2 = s ∧
    (Session.get k dflt s).1 = (dictGet s.data k).getD dflt ∧
    (Session.keys s).2 = s ∧
    (Session.values s).2 = s ∧
    (Session.items s).2 = s ∧
    (Session.contains k s).2 = s ∧
    (Session.is_empty s).2 = s := by
  have hA3 : dictGet (Session.setItem k v s).data k = some v := by
    show dictGet (dictSet s.data k v) k = some v
    rw [dictGet_dictSet]
    simp
  have hA4 : k' ≠ k →
      dictGet (Session.setItem k v s).data k' = dictGet s.data k' := by
    intro hk
    show dictGet (dictSet s.data k v) k' = dictGet s.data k'
    rw [dictGet_dictSet, if_neg (fun hc => hk hc.symm)]
  have hB1 : ((Session.delItem k s).1).is_modified = true := by
    unfold Session.delItem
    by_cases hh : dictHasKey s.data k <;> simp [hh]
  have hB2 : ((Session.delItem k s).1).session_id = s.session_id := by
    unfold Session.delItem
    by_cases hh : dictHasKey s.data k <;> simp [hh]
  have hB3 : dictGet ((Session.delItem k s).1).data k = none := by
    unfold Session.delItem
    by_cases hh : dictHasKey s.data k
    · simp only [hh, if_true]
      exact dictGet_dictRemove_self s.data k hkeys
    · simp only [hh, Bool.false_eq_true, if_false]
      unfold dictHasKey at hh
      exact Option.not_isSome_iff_eq_none.1 hh
  have hB4 : k' ≠ k →
      dictGet ((Session.delItem k s).1).data k' = dictGet s.data k' := by
    intro hk
    unfold Session.delItem
    by_cases hh : dictHasKey s.data k
    · simp only [hh, if_true]
      exact dictGet_dictRemove_other s.data k k' hk
    · simp [hh]
  have hB5 : (Session.delItem k s).2 = !(dictHasKey s.data k) := by
    unfold Session.delItem
    by_cases hh : dictHasKey s.data k <;> simp [hh]
  have hC1 : ((Session.pop k dflt s).2).is_modified = true := by
    unfold Session.pop
    cases hg : dictGet s.data k <;> rfl
  have hC2 : ((Session.pop k dflt s).2).session_id = s.session_id := by
    unfold Session.pop
    cases hg : dictGet s.data k <;> rfl
  have hC3 : (Session.pop k dflt s).1 = (dictGet s.data k).getD dflt := by
    unfold Session.pop
    cases hg : dictGet s.data k <;> rfl
  have hC4 : dictGet ((Session.pop k dflt s).2).data k = none := by
    unfold Session.pop
    cases hg : dictGet s.data k with
    | none => exact hg
    | some v0 => exact dictGet_dictRemove_self s.data k hkeys
  have hC5 : k' ≠ k →
      dictGet ((Session.pop k dflt s).2).data k' = dictGet s.data k' := by
    intro hk
    unfold Session.pop
    cases hg : dictGet s.data k with
    | none => rfl
    | some v0 => exact dictGet_dictRemove_other s.data k k' hk
  have hD1 : (Session.setdefault k v s).is_modified = true := by
    unfold Session.setdefault
    by_cases hh : dictHasKey s.data k <;> simp [hh]
  have hD2 : (Session.setdefault k v s).session_id = s.session_id := by
    unfold Session.setdefault
    by_cases hh : dictHasKey s.data k <;> simp [hh]
  have hD3 : dictGet (Session.setdefault k v s).data k =
      some ((dictGet s.data k).getD v) := by
    unfold Session.setdefault
    by_cases hh : dictHasKey s.data k
    · obtain ⟨v0, hv0⟩ := Option.isSome_iff_exists.1 hh
      simp [hh, hv0]
    · have hg : dictGet s.data k = none := Option.not_isSome_iff_eq_none.1 hh
      simp only [hh, Bool.false_eq_true, if_false]
      show dictGet (s.data ++ [(k, v)]) k = some ((dictGet s.data k).getD v)
      rw [dictGet_append, hg]
      simp [dictGet]
  have hD4 : k' ≠ k →
      dictGet (Session.setdefault k v s).data k' = dictGet s.data k' := by
    intro hk
    unfold Session.setdefault
    by_cases hh : dictHasKey s.data k
    · simp [hh]
    · simp only [hh, Bool.false_eq_true, if_false]
      show dictGet (s.data ++ [(k, v)]) k' = dictGet s.data k'
      rw [dictGet_append]
      cases hg : dictGet s.data k' with
      | none =>
          have hkk : ¬ k = k' := fun hc => hk hc.symm
          simp [dictGet, hkk, hg]
      | some v0 => simp
  have hF3 : dictGet (Session.update o s).data k' =
      (match dictGetLast o k' with
       | some v2 => some v2
       | none => dictGet s.data k') := by
    show dictGet (dictUpdate s.data o) k' = _
    exact dictGet_dictUpdate o k' s.data
  exact ⟨rfl, rfl, hA3, hA4, hB1, hB2, hB3, hB4, hB5, hC1, hC2, hC3, hC4,
    hC5, hD1, hD2, hD3, hD4, rfl, rfl, rfl, rfl, rfl, hF3, rfl, rfl, rfl,
    rfl, rfl, rfl, rfl⟩

/-- Witness for C8: a concrete session, present and absent keys. -/
theorem mutators_mark_modified_accessors_frame_witness :
    (Session.setItem "a" (JVal.num 2)
      { session_id := some (PStr.raw "sid"), data := [("a", JVal.num 1)],
        is_loaded := true, is_modified := false }).is_modified = true ∧
    dictGet (Session.setItem "a" (JVal.num 2)
      { session_id := some (PStr.raw "sid"), data := [("a", JVal.num 1)],
        is_loaded := true, is_modified := false }).data "b" =
      dictGet [("a", JVal.num 1)] "b" ∧
    (Session.pop "a" JVal.null
      { session_id := some (PStr.raw "sid"), data := [("a", JVal.num 1)],
        is_loaded := true, is_modified := false }).1 =
      (dictGet [("a", JVal.num 1)] "a").getD JVal.null := by
  have h := mutators_mark_modified_accessors_frame
    { session_id := some (PStr.raw "sid"), data := [("a", JVal.num 1)],
      is_loaded := true, is_modified := false }
    "a" "b" (JVal.num 2) JVal.null [("c", JVal.num 3)] (by decide)
  obtain ⟨h1, _, _, h4, _, _, _, _, _, _, _, h12, _⟩ := h
  exact ⟨h1, h4 (by decide), h12⟩

/-- C9: `Session.delete` never changes `session_id`; when the identifier is
set (truthy), it clears `data`, marks modified, and issues exactly one
backend `remove` call carrying that identifier (the store becoming the
backend's `remove` result); when it is not set, it makes no backend call and
leaves the whole state and store untouched. -/
theorem delete_frame (bk : Backend) (store : Store) (s : Session)
    (sid : PStr) :
    ((Session.delete bk store s).1).session_id = s.session_id ∧
    (s.session_id = some sid → strTruthy sid = true →
      (Session.delete bk store s).1 =
        { s with data := [], is_modified := true } ∧
      (Session.delete bk store s).2.1 = bk.remove store sid ∧
      (Session.delete bk store s).2.2 = [BEvent.removeCall sid]) ∧
    (idTruthy s.session_id = false →
      (Session.delete bk store s).1 = s ∧
      (Session.delete bk store s).2.1 = store ∧
      (Session.delete bk store s).2.2 = []) := by
  unfold Session.delete
  cases hs : s.session_id with
  | none =>
      refine ⟨hs, ?_, fun _ => ⟨rfl, rfl, rfl⟩⟩
      intro hc
      exact absurd hc (by simp)
  | some sid0 =>
      by_cases ht : strTruthy sid0
      · refine ⟨?_, ?_, ?_⟩
        · simp only [ht, if_true]
        · intro hc _
          obtain rfl : sid0 = sid := by injection hc
          simp [ht]
        · intro hf
          simp [idTruthy, ht] at hf
      · refine ⟨?_, ?_, ?_⟩
        · simp only [ht, Bool.false_eq_true, if_false]
          exact hs
        · intro hc htr
          obtain rfl : sid0 = sid := by injection hc
          exact absurd htr ht
        · intro _
          simp [ht]

/-- Witness for C9, applied at a truthy and at an absent identifier. -/
theorem delete_frame_witness :
    (Session.delete (Backend.cookie (CookieBackend.init "k" 60)) []
        { session_id := some (PStr.raw "sid"), data := [("a", JVal.num 1)],
          is_loaded := true, is_modified := false }).1 =
      { session_id := some (PStr.raw "sid"), data := [], is_loaded := true,
        is_modified := true } ∧
    (Session.delete (Backend.cookie (CookieBackend.init "k" 60)) []
        { session_id := none, data := [("a", JVal.num 1)],
          is_loaded := true, is_modified := false }).2.2 =
      ([] : List BEvent) := by
  have h1 := delete_frame (Backend.cookie (CookieBackend.init "k" 60)) []
    { session_id := some (PStr.raw "sid"), data := [("a", JVal.num 1)],
      is_loaded := true, is_modified := false } (PStr.raw "sid")
  have h2 := delete_frame (Backend.cookie (CookieBackend.init "k" 60)) []
    { session_id := none, data := [("a", JVal.num 1)], is_loaded := true,
      is_modified := false } (PStr.raw "sid")
  exact ⟨(h1.2.1 rfl (by decide)).1, (h2.2.2 (by decide)).2.2⟩

end Sessions








